import Mathlib

/-!
Shallow embedding of the core logic of `src/script.js` (gesture-driven
particle visualization): the gesture classifier `handleGestures`, the
per-frame interpolation of `animate`, the shape generators for the
sphere and explosion targets, the per-particle color assignment, and the
glyph-position sampler `getFuyoPositions`.

JavaScript numbers are modelled as real numbers; `Math.hypot`,
`Math.acos`, `Math.cos`, `Math.sin`, `Math.sqrt` and `Math.PI` become
their Mathlib counterparts; `Math.random()` draws become explicit real
parameters (uniform on `[0,1)` where a claim needs it).
-/

open Real Set MeasureTheory

/-- One hand landmark, as used by the classifier: only the normalized
`x` and `y` components are read (`z` is ignored by the code). -/
structure Landmark where
  x : ℝ
  y : ℝ

/-- A detected hand: the landmark array, indexed by joint number
(0 = wrist, 4 = thumb tip, 8 = index tip, 9 = middle base, ...).
Modelled as a total function on indices. -/
def Hand : Type := ℕ → Landmark

/-- The four display modes of the global `mode` variable. -/
inductive Mode where
  | TREE
  | EXPLODE
  | SPHERE
  | FUYO
deriving DecidableEq

/-- Euclidean length of the 2D vector `(a, b)`, as `Math.hypot a b`. -/
noncomputable def hypot (a b : ℝ) : ℝ := Real.sqrt (a ^ 2 + b ^ 2)

/-- The open-finger counting loop of `handleGestures` (src/script.js
lines 440-453): for each of the four non-thumb fingers, the finger
counts as open when the tip-to-wrist distance exceeds 1.2 times the
base-to-wrist distance, using 2D components only. -/
noncomputable def openFingers (landmarks : Hand) : ℕ :=
  let wrist := landmarks 0
  (List.zip [8, 12, 16, 20] [5, 9, 13, 17]).foldl
    (fun acc tb =>
      let tip := landmarks tb.1
      let base := landmarks tb.2
      let tipDist := hypot (tip.x - wrist.x) (tip.y - wrist.y)
      let baseDist := hypot (base.x - wrist.x) (base.y - wrist.y)
      if tipDist > baseDist * 1.2 then acc + 1 else acc)
    0

/-- The outputs of one `handleGestures` call: the new `mode`, the new
`controls.autoRotateSpeed`, and the status label and color written to
the status element. -/
structure GestureOutput where
  mode : Mode
  autoRotateSpeed : ℝ
  statusText : String
  statusColor : String

/-- The local `thumbIndexDist` of `handleGestures` (src/script.js line
464): 2D distance between thumb tip (landmark 4) and index tip
(landmark 8). -/
noncomputable def thumbIndexDist (landmarks : Hand) : ℝ :=
  hypot ((landmarks 4).x - (landmarks 8).x) ((landmarks 4).y - (landmarks 8).y)

/-- The local `isIndexOpen` of `handleGestures` (src/script.js line
471): index tip (landmark 8) farther from the wrist than 1.1 times the
index base (landmark 5) distance. -/
noncomputable def isIndexOpen (landmarks : Hand) : Prop :=
  hypot ((landmarks 8).x - (landmarks 0).x) ((landmarks 8).y - (landmarks 0).y) >
    hypot ((landmarks 5).x - (landmarks 0).x) ((landmarks 5).y - (landmarks 0).y) * 1.1

/-- The local `isMiddleOpen` of `handleGestures` (src/script.js line
472): middle tip (landmark 12) farther from the wrist than 1.1 times
the middle base (landmark 9) distance. -/
noncomputable def isMiddleOpen (landmarks : Hand) : Prop :=
  hypot ((landmarks 12).x - (landmarks 0).x) ((landmarks 12).y - (landmarks 0).y) >
    hypot ((landmarks 9).x - (landmarks 0).x) ((landmarks 9).y - (landmarks 0).y) * 1.1

noncomputable instance (landmarks : Hand) : Decidable (isIndexOpen landmarks) :=
  inferInstanceAs (Decidable (_ < _))

noncomputable instance (landmarks : Hand) : Decidable (isMiddleOpen landmarks) :=
  inferInstanceAs (Decidable (_ < _))

/-- The gesture classifier `handleGestures` (src/script.js lines
432-502), as a pure function from the detection result (list of hands,
first hand used) to its outputs. -/
noncomputable def handleGestures (result : List Hand) : GestureOutput :=
  match result with
  | [] =>
      { mode := Mode.TREE
        autoRotateSpeed := 1.0
        statusText := "Status: No hand detected (Auto Tree)"
        statusColor := "#fff" }
  | landmarks :: _ =>
      let rotationSpeed := ((landmarks 9).x - 0.5) * 5
      if openFingers landmarks ≥ 3 then
        { mode := Mode.EXPLODE
          autoRotateSpeed := rotationSpeed
          statusText := "Status: Hand OPEN -> Explode!"
          statusColor := "#ff0000" }
      else if thumbIndexDist landmarks < 0.05 then
        { mode := Mode.SPHERE
          autoRotateSpeed := rotationSpeed
          statusText := "Status: OK Sign -> Sphere Mode!"
          statusColor := "#00ffff" }
      else if openFingers landmarks = 2 ∧ isIndexOpen landmarks ∧ isMiddleOpen landmarks then
        { mode := Mode.FUYO
          autoRotateSpeed := rotationSpeed
          statusText := "Status: Victory -> FUYO Mode!"
          statusColor := "#ffff00" }
      else
        { mode := Mode.TREE
          autoRotateSpeed := rotationSpeed
          statusText := "Status: Hand CLOSED -> Assemble Tree"
          statusColor := "#00ff00" }

/-- On a vector lying on the x axis, `hypot` is the absolute value. -/
theorem hypot_x (a : ℝ) : hypot a 0 = |a| := by
  simp [hypot, Real.sqrt_sq_eq_abs]

/-- A fully open test hand: wrist at the origin, all four fingertips at
distance 2 on the x axis, every other joint at distance 1. -/
noncomputable def openHand : Hand := fun n =>
  if n = 0 then ⟨0, 0⟩
  else if n ∈ ([8, 12, 16, 20] : List ℕ) then ⟨2, 0⟩
  else ⟨1, 0⟩

theorem openFingers_openHand : openFingers openHand = 4 := by
  simp only [openFingers, openHand, List.zip, List.foldl]
  norm_num [hypot_x]

/-- A fully closed test hand: wrist at the origin, every other joint at
(1, 0); in particular the thumb tip coincides with the index tip. -/
noncomputable def closedHand : Hand := fun n =>
  if n = 0 then ⟨0, 0⟩ else ⟨1, 0⟩

theorem openFingers_closedHand : openFingers closedHand = 0 := by
  simp only [openFingers, closedHand, List.zip, List.foldl]
  norm_num [hypot_x]

/-- A victory-sign test hand: index and middle tips at distance 2 from
the wrist, all other non-wrist joints at distance 1. -/
noncomputable def victoryHand : Hand := fun n =>
  if n = 0 then ⟨0, 0⟩
  else if n ∈ ([8, 12] : List ℕ) then ⟨2, 0⟩
  else ⟨1, 0⟩

theorem openFingers_victoryHand : openFingers victoryHand = 2 := by
  simp only [openFingers, victoryHand, List.zip, List.foldl]
  norm_num [hypot_x]

/-- A one-finger test hand: only the index tip is extended (distance 2
from the wrist); all other non-wrist joints sit at distance 1. -/
noncomputable def oneFingerHand : Hand := fun n =>
  if n = 0 then ⟨0, 0⟩
  else if n = 8 then ⟨2, 0⟩
  else ⟨1, 0⟩

theorem openFingers_oneFingerHand : openFingers oneFingerHand = 1 := by
  simp only [openFingers, oneFingerHand, List.zip, List.foldl]
  norm_num [hypot_x]

/-- C1: for every detection result whose first hand has
`openFingers >= 3`, the classifier sets Mode = EXPLODE, with no
condition on the thumb-index distance (the `>= 3` branch is taken
before the pinch and victory checks). -/
theorem C1_open_fingers_explode (landmarks : Hand) (rest : List Hand)
    (h : openFingers landmarks ≥ 3) :
    (handleGestures (landmarks :: rest)).mode = Mode.EXPLODE := by
  simp only [handleGestures, if_pos h]

/-- C1 witness: the concrete fully open hand has four open fingers and
classifies as EXPLODE. -/
theorem C1_open_fingers_explode_witness :
    openFingers openHand ≥ 3 ∧
      (handleGestures [openHand]).mode = Mode.EXPLODE := by
  have h : openFingers openHand ≥ 3 := by rw [openFingers_openHand]; omega
  exact ⟨h, C1_open_fingers_explode openHand [] h⟩

/-- C2: for every detection result whose first hand has
`openFingers < 3` and thumb-index distance strictly below 0.05, the
classifier sets Mode = SPHERE. -/
theorem C2_pinch_sphere (landmarks : Hand) (rest : List Hand)
    (h1 : openFingers landmarks < 3) (h2 : thumbIndexDist landmarks < 0.05) :
    (handleGestures (landmarks :: rest)).mode = Mode.SPHERE := by
  simp only [handleGestures, if_neg (by omega : ¬ openFingers landmarks ≥ 3), if_pos h2]

/-- C2 witness: the concrete closed hand has zero open fingers,
coincident thumb and index tips, and classifies as SPHERE. -/
theorem C2_pinch_sphere_witness :
    openFingers closedHand < 3 ∧ thumbIndexDist closedHand < 0.05 ∧
      (handleGestures [closedHand]).mode = Mode.SPHERE := by
  have h1 : openFingers closedHand < 3 := by rw [openFingers_closedHand]; norm_num
  have h2 : thumbIndexDist closedHand < 0.05 := by
    simp only [thumbIndexDist, closedHand]
    norm_num [hypot_x]
  exact ⟨h1, h2, C2_pinch_sphere closedHand [] h1 h2⟩

/-- C3: for every detection result whose first hand has exactly two
open fingers, thumb-index distance at least 0.05, and index and middle
fingers individually open per the 1.1 ratio test, the classifier sets
Mode = FUYO; and in every remaining case with `openFingers < 3` and
thumb-index distance at least 0.05 it sets Mode = TREE. -/
theorem C3_victory_fuyo_else_tree (landmarks : Hand) (rest : List Hand) :
    (openFingers landmarks = 2 → 0.05 ≤ thumbIndexDist landmarks →
      isIndexOpen landmarks → isMiddleOpen landmarks →
      (handleGestures (landmarks :: rest)).mode = Mode.FUYO) ∧
    (openFingers landmarks < 3 → 0.05 ≤ thumbIndexDist landmarks →
      ¬ (openFingers landmarks = 2 ∧ isIndexOpen landmarks ∧ isMiddleOpen landmarks) →
      (handleGestures (landmarks :: rest)).mode = Mode.TREE) := by
  constructor
  · intro h2 hd hi hm
    have hc : openFingers landmarks = 2 ∧ isIndexOpen landmarks ∧ isMiddleOpen landmarks :=
      ⟨h2, hi, hm⟩
    simp only [handleGestures, if_neg (by omega : ¬ openFingers landmarks ≥ 3),
      if_neg (not_lt.mpr hd), if_pos hc]
  · intro h3 hd hv
    simp only [handleGestures, if_neg (by omega : ¬ openFingers landmarks ≥ 3),
      if_neg (not_lt.mpr hd), if_neg hv]

/-- C3 witness: the concrete victory hand classifies as FUYO, and the
concrete one-finger hand (thumb-index distance 1) classifies as TREE. -/
theorem C3_victory_fuyo_else_tree_witness :
    (handleGestures [victoryHand]).mode = Mode.FUYO ∧
      (handleGestures [oneFingerHand]).mode = Mode.TREE := by
  constructor
  · refine (C3_victory_fuyo_else_tree victoryHand []).1 openFingers_victoryHand ?_ ?_ ?_
    · simp only [thumbIndexDist, victoryHand]; norm_num [hypot_x]
    · simp only [isIndexOpen, victoryHand]; norm_num [hypot_x]
    · simp only [isMiddleOpen, victoryHand]; norm_num [hypot_x]
  · refine (C3_victory_fuyo_else_tree oneFingerHand []).2 ?_ ?_ ?_
    · rw [openFingers_oneFingerHand]; norm_num
    · simp only [thumbIndexDist, oneFingerHand]; norm_num [hypot_x]
    · rw [openFingers_oneFingerHand]; norm_num

/-- C4: the empty detection result deterministically yields Mode = TREE
and the default rotation speed 1.0. -/
theorem C4_no_hand_tree_default :
    (handleGestures []).mode = Mode.TREE ∧
      (handleGestures []).autoRotateSpeed = 1.0 :=
  ⟨rfl, rfl⟩

/-- C5: for every detection result with at least one hand, the returned
rotation speed is `(handX - 0.5) * 5` with `handX` the x-coordinate of
landmark 9 of the first hand, in every classifier branch. -/
theorem C5_rotation_speed (landmarks : Hand) (rest : List Hand) :
    (handleGestures (landmarks :: rest)).autoRotateSpeed =
      ((landmarks 9).x - 0.5) * 5 := by
  simp only [handleGestures]
  split_ifs <;> rfl

/-- Per-group particle buffers of `allParticleData` (src/script.js
lines 287-294): the mutable current positions and the four immutable
target buffers, as flat arrays indexed by `3 * particle + axis`. -/
structure ParticleData where
  positions : ℕ → ℝ
  targetPositions : ℕ → ℝ
  randomPositions : ℕ → ℝ
  spherePositions : ℕ → ℝ
  fuyoPositions : ℕ → ℝ

/-- The fixed interpolation factor of `animate` (src/script.js line
510). -/
noncomputable def lerpSpeed : ℝ := 0.05

/-- The target-buffer selection of `animate` (src/script.js lines
523-539): TREE reads `targetPositions`, SPHERE `spherePositions`,
FUYO `fuyoPositions`, and the remaining mode (EXPLODE) falls through
to `randomPositions`. -/
def targetOf (m : Mode) (d : ParticleData) : ℕ → ℝ :=
  if m = Mode.TREE then d.targetPositions
  else if m = Mode.SPHERE then d.spherePositions
  else if m = Mode.FUYO then d.fuyoPositions
  else d.randomPositions

/-- One frame of the `animate` interpolation for one particle group
(src/script.js lines 541-544): each axis entry moves toward the
selected target by `(target - current) * lerpSpeed`. -/
noncomputable def animateStep (m : Mode) (d : ParticleData) : ParticleData :=
  { d with
    positions := fun j =>
      d.positions j + (targetOf m d j - d.positions j) * lerpSpeed }

theorem targetOf_animateStep (m m' : Mode) (d : ParticleData) :
    targetOf m (animateStep m' d) = targetOf m d := by
  unfold targetOf animateStep
  split_ifs <;> rfl

theorem targetOf_iterate (m : Mode) (d : ParticleData) (k : ℕ) :
    targetOf m ((animateStep m)^[k] d) = targetOf m d := by
  induction k with
  | zero => rfl
  | succ n ih => rw [Function.iterate_succ_apply', targetOf_animateStep, ih]

theorem animate_offset_closed_form (m : Mode) (d : ParticleData) (j k : ℕ) :
    ((animateStep m)^[k] d).positions j - targetOf m d j =
      (1 - lerpSpeed) ^ k * (d.positions j - targetOf m d j) := by
  induction k with
  | zero => simp
  | succ n ih =>
    rw [Function.iterate_succ_apply']
    have hpos :
        ((animateStep m) ((animateStep m)^[n] d)).positions j =
          ((animateStep m)^[n] d).positions j +
            (targetOf m d j - ((animateStep m)^[n] d).positions j) * lerpSpeed := by
      simp [animateStep, targetOf_iterate]
    rw [hpos, pow_succ]
    have hA : ((animateStep m)^[n] d).positions j =
        targetOf m d j + (1 - lerpSpeed) ^ n * (d.positions j - targetOf m d j) := by
      linarith
    rw [hA]
    ring

/-- C7: if a particle axis already equals its selected target exactly,
one further `animate` interpolation step leaves it unchanged. -/
theorem C7_lerp_idempotent (m : Mode) (d : ParticleData) (j : ℕ)
    (h : d.positions j = targetOf m d j) :
    (animateStep m d).positions j = d.positions j := by
  simp only [animateStep]
  rw [h]
  ring

/-- C7 witness: a concrete group whose first axis entry already sits at
the TREE target is left unchanged by one step. -/
noncomputable def restingData : ParticleData :=
  ⟨fun _ => 1, fun _ => 1, fun _ => 2, fun _ => 3, fun _ => 4⟩

theorem C7_lerp_idempotent_witness :
    restingData.positions 0 = targetOf Mode.TREE restingData 0 ∧
      (animateStep Mode.TREE restingData).positions 0 = restingData.positions 0 := by
  have h : restingData.positions 0 = targetOf Mode.TREE restingData 0 := rfl
  exact ⟨h, C7_lerp_idempotent Mode.TREE restingData 0 h⟩

/-- C8: with the mode (hence the target) held fixed, each `animate`
step scales a particle axis offset from its target by exactly
`1 - lerpSpeed`, and for a nonzero initial offset the absolute offset
strictly decreases at every step. -/
theorem C8_lerp_convergence (m : Mode) (d : ParticleData) (j k : ℕ) :
    |((animateStep m)^[k + 1] d).positions j - targetOf m d j| =
      (1 - lerpSpeed) * |((animateStep m)^[k] d).positions j - targetOf m d j| ∧
    (d.positions j ≠ targetOf m d j →
      |((animateStep m)^[k + 1] d).positions j - targetOf m d j| <
        |((animateStep m)^[k] d).positions j - targetOf m d j|) := by
  have hcf := animate_offset_closed_form m d j k
  have hcf1 := animate_offset_closed_form m d j (k + 1)
  have hfac : |(1 : ℝ) - lerpSpeed| = 1 - lerpSpeed := by
    rw [abs_of_nonneg]
    norm_num [lerpSpeed]
  have heq :
      |((animateStep m)^[k + 1] d).positions j - targetOf m d j| =
        (1 - lerpSpeed) * |((animateStep m)^[k] d).positions j - targetOf m d j| := by
    rw [hcf, hcf1, pow_succ, mul_comm ((1 - lerpSpeed) ^ k) (1 - lerpSpeed), mul_assoc,
      abs_mul, abs_mul, hfac]
  refine ⟨heq, fun hne => ?_⟩
  have hpk : 0 < |((animateStep m)^[k] d).positions j - targetOf m d j| := by
    rw [hcf, abs_mul]
    apply mul_pos
    · rw [abs_pos]
      exact pow_ne_zero k (by norm_num [lerpSpeed])
    · rw [abs_pos]
      exact sub_ne_zero_of_ne hne
  rw [heq]
  have hlt : (1 - lerpSpeed : ℝ) < 1 := by norm_num [lerpSpeed]
  nlinarith [hpk, hlt]

/-- C8 witness: a concrete group with offset 1 from the TREE target;
after one step the absolute offset equals `1 - lerpSpeed` times the
initial one and is strictly smaller. -/
noncomputable def offsetData : ParticleData :=
  ⟨fun _ => 0, fun _ => 1, fun _ => 0, fun _ => 0, fun _ => 0⟩

theorem C8_lerp_convergence_witness :
    |((animateStep Mode.TREE)^[0 + 1] offsetData).positions 0 -
        targetOf Mode.TREE offsetData 0| =
      (1 - lerpSpeed) *
        |((animateStep Mode.TREE)^[0] offsetData).positions 0 -
          targetOf Mode.TREE offsetData 0| ∧
    |((animateStep Mode.TREE)^[0 + 1] offsetData).positions 0 -
        targetOf Mode.TREE offsetData 0| <
      |((animateStep Mode.TREE)^[0] offsetData).positions 0 -
        targetOf Mode.TREE offsetData 0| := by
  have hne : offsetData.positions 0 ≠ targetOf Mode.TREE offsetData 0 := by
    simp only [offsetData, targetOf]
    norm_num
  exact ⟨(C8_lerp_convergence Mode.TREE offsetData 0 0).1,
    (C8_lerp_convergence Mode.TREE offsetData 0 0).2 hne⟩

/-- The explosion radius constant (src/script.js line 12). -/
def EXPLOSION_RADIUS : ℝ := 80

/-- The sphere-target generator (src/script.js lines 332-339): radius
`sR = 25`, `sTheta = u1 * PI * 2`, `sPhi = acos(u2 * 2 - 1)`, where
`u1`, `u2` are the two `Math.random()` draws. -/
noncomputable def spherePoint (u1 u2 : ℝ) : ℝ × ℝ × ℝ :=
  let sR : ℝ := 25
  let sTheta := u1 * Real.pi * 2
  let sPhi := Real.arccos (u2 * 2 - 1)
  (sR * Real.sin sPhi * Real.cos sTheta,
   sR * Real.sin sPhi * Real.sin sTheta,
   sR * Real.cos sPhi)

/-- The explosion-target generator (src/script.js lines 323-330):
`theta = u1 * PI * 2`, `phi = acos(u2 * 2 - 1)`, and the radius drawn
as `rad = u3 * EXPLOSION_RADIUS`. -/
noncomputable def explodePoint (u1 u2 u3 : ℝ) : ℝ × ℝ × ℝ :=
  let theta := u1 * Real.pi * 2
  let phi := Real.arccos (u2 * 2 - 1)
  let rad := u3 * EXPLOSION_RADIUS
  (rad * Real.sin phi * Real.cos theta,
   rad * Real.sin phi * Real.sin theta,
   rad * Real.cos phi)

/-- Euclidean distance of a generated point from the origin. -/
noncomputable def distToOrigin (p : ℝ × ℝ × ℝ) : ℝ :=
  Real.sqrt (p.1 ^ 2 + p.2.1 ^ 2 + p.2.2 ^ 2)

theorem spherical_sq_sum (r phi theta : ℝ) :
    (r * Real.sin phi * Real.cos theta) ^ 2 +
      (r * Real.sin phi * Real.sin theta) ^ 2 + (r * Real.cos phi) ^ 2 = r ^ 2 := by
  have htheta := Real.sin_sq_add_cos_sq theta
  have hphi := Real.sin_sq_add_cos_sq phi
  linear_combination (r ^ 2 * Real.sin phi ^ 2) * htheta + r ^ 2 * hphi

/-- C9: every sphere-target point lies at distance exactly 25 from the
origin, and for radius draws `u3` in `[0,1)` every explosion-target
point lies within distance `EXPLOSION_RADIUS = 80` of the origin. -/
theorem C9_shape_geometry (u1 u2 v1 v2 v3 : ℝ) (h0 : 0 ≤ v3) (h1 : v3 < 1) :
    distToOrigin (spherePoint u1 u2) = 25 ∧
      distToOrigin (explodePoint v1 v2 v3) ≤ EXPLOSION_RADIUS := by
  constructor
  · simp only [distToOrigin, spherePoint]
    rw [spherical_sq_sum 25 (Real.arccos (u2 * 2 - 1)) (u1 * Real.pi * 2)]
    rw [show (25 : ℝ) ^ 2 = 25 * 25 by ring]
    exact Real.sqrt_mul_self (by norm_num)
  · simp only [distToOrigin, explodePoint]
    rw [spherical_sq_sum (v3 * EXPLOSION_RADIUS) (Real.arccos (v2 * 2 - 1))
      (v1 * Real.pi * 2)]
    have hrad : 0 ≤ v3 * EXPLOSION_RADIUS := by
      apply mul_nonneg h0
      norm_num [EXPLOSION_RADIUS]
    rw [show (v3 * EXPLOSION_RADIUS) ^ 2 = (v3 * EXPLOSION_RADIUS) * (v3 * EXPLOSION_RADIUS)
      by ring]
    rw [Real.sqrt_mul_self hrad]
    have h80 : EXPLOSION_RADIUS = 80 := rfl
    nlinarith [h1, h0, h80]

/-- C9 witness: at concrete draws (0, 0) and (0, 0, 1/2) the sphere
point is at distance 25 and the explosion point within 80. -/
theorem C9_shape_geometry_witness :
    distToOrigin (spherePoint 0 0) = 25 ∧
      distToOrigin (explodePoint 0 0 (1 / 2)) ≤ EXPLOSION_RADIUS :=
  C9_shape_geometry 0 0 0 0 (1 / 2) (by norm_num) (by norm_num)

/-- The glyph-position sampler `getFuyoPositions` (src/script.js lines
218-263), given the rasterized mask. The canvas rasterization of the
word onto a 200x100 canvas is external (browser canvas API); its
result is the `validPixels` list of bright pixel coordinates. The
output buffer is zero-initialized (`Float32Array`); the fill loop
breaks immediately when the mask is empty, so every entry keeps its
zero; otherwise entry `i` maps the randomly picked pixel into world
space with scale 0.4, vertical flip, +20 lift, and random depth. -/
noncomputable def getFuyoPositions (validPixels : List (ℕ × ℕ)) (count : ℕ)
    (pickDraw depthDraw : ℕ → ℝ) : ℕ → ℝ × ℝ × ℝ :=
  let width : ℝ := 200
  let height : ℝ := 100
  let scale : ℝ := 0.4
  fun i =>
    if i < count then
      match validPixels with
      | [] => (0, 0, 0)
      | _ :: _ =>
        let pixel := validPixels.getD (Nat.floor (pickDraw i * validPixels.length)) (0, 0)
        (((pixel.1 : ℝ) - width / 2) * scale,
         -((pixel.2 : ℝ) - height / 2) * scale + 20,
         (depthDraw i - 0.5) * 2)
    else (0, 0, 0)

/-- C10: when the rasterized mask is empty, every output position of
`getFuyoPositions` stays at its zero-initialized value, for every
requested particle index and all random draws. -/
theorem C10_empty_mask_zero (validPixels : List (ℕ × ℕ)) (count : ℕ)
    (pickDraw depthDraw : ℕ → ℝ) (i : ℕ) (h : validPixels = []) :
    getFuyoPositions validPixels count pickDraw depthDraw i = (0, 0, 0) := by
  subst h
  simp only [getFuyoPositions]
  split <;> rfl

/-- C10 witness: with an empty mask, particle 3 of a 5-particle request
is the zero position. -/
theorem C10_empty_mask_zero_witness :
    getFuyoPositions [] 5 (fun _ => 0) (fun _ => 0) 3 = (0, 0, 0) :=
  C10_empty_mask_zero [] 5 (fun _ => 0) (fun _ => 0) 3 rfl

/-- The three palette colors of the particle systems (src/script.js
lines 296-298): `color1` green, `color2` gold, `color3` red. -/
inductive PColor where
  | green
  | gold
  | red
deriving DecidableEq

/-- The per-particle color assignment (src/script.js lines 349-351):
`c` starts green, a first `Math.random()` draw above 0.70 switches it
to gold, and a second independent draw above 0.90 switches it to
red. -/
noncomputable def chooseColor (r1 r2 : ℝ) : PColor :=
  let c := PColor.green
  let c := if r1 > 0.70 then PColor.gold else c
  if r2 > 0.90 then PColor.red else c

/-- The pairs of uniform draws in the unit square that produce a given
color. -/
noncomputable def colorRegion (col : PColor) : Set (ℝ × ℝ) :=
  {p | p.1 ∈ Ico (0 : ℝ) 1 ∧ p.2 ∈ Ico (0 : ℝ) 1 ∧ chooseColor p.1 p.2 = col}

theorem chooseColor_green_iff (r1 r2 : ℝ) :
    chooseColor r1 r2 = PColor.green ↔ r1 ≤ 0.70 ∧ r2 ≤ 0.90 := by
  unfold chooseColor
  by_cases h2 : r2 > 0.90
  · rw [if_pos h2]
    simp only [not_le.mpr h2, and_false, iff_false]
    exact fun h => PColor.noConfusion h
  · rw [if_neg h2]
    by_cases h1 : r1 > 0.70
    · rw [if_pos h1]
      simp only [not_le.mpr h1, false_and, iff_false]
      exact fun h => PColor.noConfusion h
    · rw [if_neg h1]
      simp only [true_iff]
      exact ⟨le_of_not_lt h1, le_of_not_lt h2⟩

theorem chooseColor_gold_iff (r1 r2 : ℝ) :
    chooseColor r1 r2 = PColor.gold ↔ 0.70 < r1 ∧ r2 ≤ 0.90 := by
  unfold chooseColor
  by_cases h2 : r2 > 0.90
  · rw [if_pos h2]
    simp only [not_le.mpr h2, and_false, iff_false]
    exact fun h => PColor.noConfusion h
  · rw [if_neg h2]
    by_cases h1 : r1 > 0.70
    · rw [if_pos h1]
      simp only [true_iff]
      exact ⟨h1, le_of_not_lt h2⟩
    · rw [if_neg h1]
      constructor
      · intro h
        exact PColor.noConfusion h
      · rintro ⟨ha, _⟩
        exact absurd ha h1

theorem chooseColor_red_iff (r1 r2 : ℝ) :
    chooseColor r1 r2 = PColor.red ↔ 0.90 < r2 := by
  unfold chooseColor
  by_cases h2 : r2 > 0.90
  · rw [if_pos h2]
    simp only [true_iff]
    exact h2
  · rw [if_neg h2]
    by_cases h1 : r1 > 0.70
    · rw [if_pos h1]
      constructor
      · intro h
        exact PColor.noConfusion h
      · intro h
        exact absurd h h2
    · rw [if_neg h1]
      constructor
      · intro h
        exact PColor.noConfusion h
      · intro h
        exact absurd h h2

theorem colorRegion_green_eq :
    colorRegion PColor.green = Icc (0 : ℝ) 0.70 ×ˢ Icc (0 : ℝ) 0.90 := by
  ext ⟨x, y⟩
  simp only [colorRegion, mem_setOf_eq, mem_Ico, mem_prod, mem_Icc, chooseColor_green_iff]
  constructor
  · rintro ⟨⟨hx0, hx1⟩, ⟨hy0, hy1⟩, hx7, hy9⟩
    exact ⟨⟨hx0, hx7⟩, hy0, hy9⟩
  · rintro ⟨⟨hx0, hx7⟩, hy0, hy9⟩
    exact ⟨⟨hx0, by linarith⟩, ⟨hy0, by linarith⟩, hx7, hy9⟩

theorem colorRegion_gold_eq :
    colorRegion PColor.gold = Ioo (0.70 : ℝ) 1 ×ˢ Icc (0 : ℝ) 0.90 := by
  ext ⟨x, y⟩
  simp only [colorRegion, mem_setOf_eq, mem_Ico, mem_prod, mem_Icc, mem_Ioo,
    chooseColor_gold_iff]
  constructor
  · rintro ⟨⟨hx0, hx1⟩, ⟨hy0, hy1⟩, hx7, hy9⟩
    exact ⟨⟨hx7, hx1⟩, hy0, hy9⟩
  · rintro ⟨⟨hx7, hx1⟩, hy0, hy9⟩
    exact ⟨⟨by linarith, hx1⟩, ⟨hy0, by linarith⟩, hx7, hy9⟩

theorem colorRegion_red_eq :
    colorRegion PColor.red = Ico (0 : ℝ) 1 ×ˢ Ioo (0.90 : ℝ) 1 := by
  ext ⟨x, y⟩
  simp only [colorRegion, mem_setOf_eq, mem_Ico, mem_prod, mem_Ioo, chooseColor_red_iff]
  constructor
  · rintro ⟨⟨hx0, hx1⟩, ⟨hy0, hy1⟩, hy9⟩
    exact ⟨⟨hx0, hx1⟩, hy9, hy1⟩
  · rintro ⟨⟨hx0, hx1⟩, hy9, hy1⟩
    exact ⟨⟨hx0, hx1⟩, ⟨by linarith, hy1⟩, hy9⟩

theorem volume_colorRegion_green :
    volume (colorRegion PColor.green) = ENNReal.ofReal 0.63 := by
  rw [colorRegion_green_eq, Measure.volume_eq_prod, Measure.prod_prod,
    Real.volume_Icc, Real.volume_Icc, ← ENNReal.ofReal_mul (by norm_num)]
  norm_num

theorem volume_colorRegion_gold :
    volume (colorRegion PColor.gold) = ENNReal.ofReal 0.27 := by
  rw [colorRegion_gold_eq, Measure.volume_eq_prod, Measure.prod_prod,
    Real.volume_Ioo, Real.volume_Icc, ← ENNReal.ofReal_mul (by norm_num)]
  norm_num

theorem volume_colorRegion_red :
    volume (colorRegion PColor.red) = ENNReal.ofReal 0.10 := by
  rw [colorRegion_red_eq, Measure.volume_eq_prod, Measure.prod_prod,
    Real.volume_Ico, Real.volume_Ioo, ← ENNReal.ofReal_mul (by norm_num)]
  norm_num

/-- C6 counterexample: under the uniform measure on the unit square of
the two color draws, the gold region has probability 27/100, not the
claimed 20/100 (and hence green has 63/100, not 70/100). -/
theorem C6_color_split_counterexample :
    volume (colorRegion PColor.gold) ≠ ENNReal.ofReal 0.20 := by
  rw [volume_colorRegion_gold]
  intro h
  rw [ENNReal.ofReal_eq_ofReal_iff (by norm_num) (by norm_num)] at h
  norm_num at h

/-- C6 (amended): the color of a particle is chosen by two independent
uniform draws, giving green with probability 63%, gold with 27%, and
red with 10%. -/
theorem C6_color_split :
    volume (colorRegion PColor.green) = ENNReal.ofReal 0.63 ∧
      volume (colorRegion PColor.gold) = ENNReal.ofReal 0.27 ∧
        volume (colorRegion PColor.red) = ENNReal.ofReal 0.10 :=
  ⟨volume_colorRegion_green, volume_colorRegion_gold, volume_colorRegion_red⟩
